import Mathlib

/-!
Shallow embedding of `src/lib/bridge.js` (the `PodiumBridge` class of
`@podium/bridge`): a JSON-RPC 2.0 correlation and dispatch engine between a
web document and a native host.

JavaScript field values are modelled by `JField` (enough structure to decide
`typeof`, truthiness, strict equality and template-string rendering).
Envelope objects are `MsgObj`; handler functions are `Handler` values whose
constructor arguments model closure identity.  The mutable instance state
(`#handlers`, the window event-listener list, and the messages handed to the
transport adapter) is `BridgeState`.  The promise returned by `call`,
together with its timer, is the explicit state machine `CallMachine`.
-/

/-- A JavaScript value sitting in a field of an envelope.  `obj` and the
other constructors carry just enough data to decide the checks the source
performs (`typeof`, `=== null`, truthiness, `=== '2.0'`) and the rendering
used by template strings. -/
inductive JField where
  | undefined
  | null
  | str (s : String)
  | num (n : Int)
  | bool (b : Bool)
  | obj (tag : Nat)
deriving DecidableEq, Repr

/-- JavaScript truthiness of a field value. -/
def jtruthy : JField → Bool
  | .undefined => false
  | .null => false
  | .str s => if s = "" then false else true
  | .num n => if n = 0 then false else true
  | .bool b => b
  | .obj _ => true

/-- Template-string rendering of a field value, as in `` `_internal:${id}` ``. -/
def jrender : JField → String
  | .undefined => "undefined"
  | .null => "null"
  | .str s => s
  | .num n => toString n
  | .bool b => if b then "true" else "false"
  | .obj _ => "[object Object]"

/-- An envelope object: the fields of `RpcRequest`/`RpcResponse` the source
reads, each `JField.undefined` when absent. -/
structure MsgObj where
  jsonrpc : JField := JField.undefined
  method : JField := JField.undefined
  params : JField := JField.undefined
  id : JField := JField.undefined
  result : JField := JField.undefined
  error : JField := JField.undefined
  errors : JField := JField.undefined
deriving DecidableEq, Repr

/-- A handler function value.  `user i throws` is a caller-supplied callback
(`i` models function identity, `throws` whether invoking it raises);
`wrap wid topic inner` is the closure `newHandler` created by `once(topic,
inner)` (`wid` models the fresh closure identity). -/
inductive Handler where
  | user (i : Nat) (throws : Bool)
  | wrap (wid : Nat) (topic : String) (inner : Handler)
deriving DecidableEq, Repr

/-- The second argument of `off`, which the source never type-checks:
a function value, a falsy value (`undefined`, `null`, `0`, `""`, `false`),
or a truthy non-function value. -/
inductive OffArg where
  | fn (h : Handler)
  | falsy
  | truthyNonFn (tag : Nat)
deriving DecidableEq, Repr

/-- The filter predicate `(fn) => eventHandler && fn !== eventHandler` from
`off`. -/
def offKeep (arg : OffArg) (x : Handler) : Bool :=
  match arg with
  | .fn h => if x = h then false else true
  | .falsy => false
  | .truthyNonFn _ => true

/-- Identity of the bound function `this.#receiveMessage.bind(this)` the
constructor registers on the window. -/
def boundReceiveTag : Nat := 0

/-- Identity of the raw method reference `this.#receiveMessage` that
`destroy` passes to `removeEventListener`; a distinct function object from
the bound one. -/
def unboundReceiveTag : Nat := 1

/-- Mutable state of one `PodiumBridge` instance plus the bits of its
environment the claims observe: the `#handlers` map (an association list,
preserving JS object key-insertion order), the `(event name, listener)`
pairs currently registered on `window`, and the envelopes handed to the
transport adapter by `#sendMessage`. -/
structure BridgeState where
  handlers : List (String × List Handler) := []
  windowListeners : List (String × Nat) := []
  sent : List MsgObj := []
deriving DecidableEq, Repr

/-- `this.#handlers[topic]`: `none` when the key is absent. -/
def lookupTopic : List (String × List Handler) → String → Option (List Handler)
  | [], _ => none
  | (k, l) :: rest, t => if k = t then some l else lookupTopic rest t

/-- `this.#handlers[topic] = l`: replace in place, or create the key at the
end (JS object key-insertion order). -/
def setTopic : List (String × List Handler) → String → List Handler → List (String × List Handler)
  | [], t, l => [(t, l)]
  | (k, v) :: rest, t, l => if k = t then (k, l) :: rest else (k, v) :: setTopic rest t l

/-- The list of handlers a dispatch to `t` would see: `this.#handlers[t] || []`. -/
def topicHandlers (st : BridgeState) (t : String) : List Handler :=
  (lookupTopic st.handlers t).getD []

/-- `new PodiumBridge()`: empty handler map; the constructor adds the bound
`#receiveMessage` as a listener for the `rpcbridge` window event. -/
def mkBridge : BridgeState :=
  { handlers := [], windowListeners := [("rpcbridge", boundReceiveTag)], sent := [] }

/-- `on(method, eventHandler)`:
`(this.#handlers[method] = this.#handlers[method] || []).push(eventHandler)`.
(`on` itself is a reserved token in Lean, hence the primed name.) -/
def on' (st : BridgeState) (t : String) (h : Handler) : BridgeState :=
  { st with handlers := setTopic st.handlers t (topicHandlers st t ++ [h]) }

/-- `off(method, eventHandler)`:
`this.#handlers[method] = (this.#handlers[method] || []).filter((fn) => eventHandler && fn !== eventHandler)`. -/
def off (st : BridgeState) (t : String) (arg : OffArg) : BridgeState :=
  { st with handlers := setTopic st.handlers t ((topicHandlers st t).filter (offKeep arg)) }

/-- `once(method, handler)`: registers the self-deregistering wrapper
closure (identity `wid`). -/
def once (st : BridgeState) (t : String) (h : Handler) (wid : Nat) : BridgeState :=
  on' st t (Handler.wrap wid t h)

/-- One `throw new Error(...)` site of the source, carrying the data the
message string would embed. -/
inductive BridgeError where
  | notAnObject
  | unsupportedVersion (v : JField)
  | nativeRequestWithId (m : MsgObj)
  | invalidRequestResponse (r : MsgObj)
  | notificationWithId
  | handlerThrew (i : Nat)
deriving DecidableEq, Repr

/-- Result of running an inbound dispatch: the state after it, the identity
of every user callback that was invoked, in order, and the error that
escaped the dispatch, if any. -/
structure DispatchOut where
  st : BridgeState
  invoked : List Nat
  err : Option BridgeError
deriving DecidableEq, Repr

/-- Invoking one handler value with the dispatched envelope.  A plain
callback runs (and is recorded) and possibly throws; a `once` wrapper first
deregisters itself (`this.off(method, newHandler)`) and then calls the
wrapped handler directly. -/
def runHandler (st : BridgeState) (h : Handler) : DispatchOut :=
  match h with
  | .user i thr => ⟨st, [i], if thr then some (BridgeError.handlerThrew i) else none⟩
  | .wrap wid t inner => runHandler (off st t (OffArg.fn (Handler.wrap wid t inner))) inner

/-- `for (const listener of listeners) { listener(message); }` over a
snapshot of the handler list, with no exception boundary: a throw escapes
and ends the loop. -/
def dispatchList (st : BridgeState) (hs : List Handler) : DispatchOut :=
  match hs with
  | [] => ⟨st, [], none⟩
  | h :: rest =>
    let r := runHandler st h
    match r.err with
    | some e => ⟨r.st, r.invoked, some e⟩
    | none =>
      let r2 := dispatchList r.st rest
      ⟨r2.st, r.invoked ++ r2.invoked, r2.err⟩

/-- `#receiveRequest(message)`: inbound request/notification with method
name `mn`. -/
def receiveRequest (st : BridgeState) (m : MsgObj) (mn : String) : DispatchOut :=
  if jtruthy m.id then ⟨st, [], some (BridgeError.nativeRequestWithId m)⟩
  else dispatchList st (topicHandlers st mn)

/-- A raw payload delivered by the transport: either a value with
`typeof !== 'object'`, or an envelope object. -/
inductive JsMsg where
  | nonObject (tag : Nat)
  | object (m : MsgObj)
deriving DecidableEq, Repr

/-- `#receiveMessage(event)`: validate the envelope, classify it as request
or response, and dispatch. -/
def receiveMessage (st : BridgeState) (msg : JsMsg) : DispatchOut :=
  match msg with
  | .nonObject _ => ⟨st, [], some BridgeError.notAnObject⟩
  | .object m =>
    match m.jsonrpc with
    | .str s =>
      if s = "2.0" then
        match m.method with
        | .str mn => receiveRequest st m mn
        | _ =>
          if jtruthy m.error ∧ m.id = JField.null then
            ⟨st, [], some (BridgeError.invalidRequestResponse m)⟩
          else
            dispatchList st (topicHandlers st ("_internal:" ++ jrender m.id))
      else ⟨st, [], some (BridgeError.unsupportedVersion (JField.str s))⟩
    | v => ⟨st, [], some (BridgeError.unsupportedVersion v)⟩

/-- `window.dispatchEvent(new CustomEvent(name, {detail}))`: the engine
processes the payload only if its listener is still registered for `name`. -/
def dispatchWindowEvent (st : BridgeState) (name : String) (msg : JsMsg) : DispatchOut :=
  if (name, boundReceiveTag) ∈ st.windowListeners then receiveMessage st msg
  else ⟨st, [], none⟩

/-- `destroy()`: empty every topic's handler list (keys kept) and call
`window.removeEventListener('nativebridge', this.#receiveMessage)`. -/
def destroy (st : BridgeState) : BridgeState :=
  { st with
    handlers := st.handlers.map (fun p => (p.1, [])),
    windowListeners :=
      st.windowListeners.filter (fun p => !(p.1 = "nativebridge" ∧ p.2 = unboundReceiveTag)) }

/-- `#sendMessage(message)`: default a falsy `jsonrpc` to `"2.0"` (an
in-place mutation of the caller's object), then hand the envelope to the
transport adapter.  Returns the mutated envelope together with the state. -/
def sendMessage (st : BridgeState) (m : MsgObj) : BridgeState × MsgObj :=
  let m2 := if jtruthy m.jsonrpc then m else { m with jsonrpc := JField.str "2.0" }
  ({ st with sent := st.sent ++ [m2] }, m2)

/-- `notification(notification)`: throw if `typeof id !== 'undefined'`,
otherwise send.  The second component is the thrown error, if any. -/
def notificationOp (st : BridgeState) (n : MsgObj) : BridgeState × Option BridgeError :=
  if n.id = JField.undefined then ((sendMessage st n).1, none)
  else (st, some BridgeError.notificationWithId)

/-- How the promise returned by `call` settled. -/
inductive Settle where
  | resolved (r : MsgObj)
  | rejectedValidation (msg : String)
  | rejectedTimeout (msg : String)
  | rejectedErrors (payload : JField)
deriving DecidableEq, Repr

/-- The explicit state of one `call(request, timeout)` invocation: the
bridge state after the executor ran, the caller's request object (mutated in
place by `call` and `#sendMessage`), the armed timer, the `timedout` flag,
and how (whether) the promise has settled.  A promise settles at most once;
later `resolve`/`reject` are no-ops. -/
structure CallMachine where
  bst : BridgeState
  request : MsgObj
  timeoutMs : Int
  timerActive : Bool
  timedout : Bool
  settled : Option Settle
deriving DecidableEq, Repr

/-- The executor of `call(request, timeout)`: validate, assign a generated
id when `request.id` is undefined (`genId` stands for the value `uid()`
returned), arm the timer, register the one-shot `done` listener (closure
identities `wid` for the `once` wrapper, `doneId` for `done`) under
`_internal:` + id, and send the envelope. -/
def callStart (st : BridgeState) (request : MsgObj) (timeout : JField)
    (genId : String) (wid doneId : Nat) : CallMachine :=
  match timeout with
  | .num t =>
    match request.method with
    | .str _ =>
      let req := if request.id = JField.undefined then { request with id := JField.str genId }
                 else request
      let st1 := once st ("_internal:" ++ jrender req.id) (Handler.user doneId false) wid
      let sent := sendMessage st1 req
      { bst := sent.1, request := sent.2, timeoutMs := t,
        timerActive := true, timedout := false, settled := none }
    | _ =>
      { bst := st, request := request, timeoutMs := 0, timerActive := false, timedout := false,
        settled := some (Settle.rejectedValidation "request.method must be a string") }
  | _ =>
    { bst := st, request := request, timeoutMs := 0, timerActive := false, timedout := false,
      settled := some (Settle.rejectedValidation "timeout must be a number") }

/-- The `setTimeout` callback firing: only possible while the timer is
armed; sets `timedout` and rejects with the message naming the method and
the duration. -/
def fireTimer (m : CallMachine) : CallMachine :=
  if m.timerActive then
    let m1 := { m with timerActive := false, timedout := true }
    match m1.settled with
    | some _ => m1
    | none =>
      { m1 with settled := some (Settle.rejectedTimeout
          (jrender m1.request.method ++ " timed out after " ++ toString m1.timeoutMs ++ "ms")) }
  else m

/-- The `done` callback from `call` running with argument `args`:
`clearTimeout(timer); if (args.errors) reject(...); else if (!timedout) resolve(args);`. -/
def applyDone (m : CallMachine) (args : MsgObj) : CallMachine :=
  let m1 := { m with timerActive := false }
  if jtruthy args.errors then
    match m1.settled with
    | some _ => m1
    | none => { m1 with settled := some (Settle.rejectedErrors args.errors) }
  else if m1.timedout then m1
  else
    match m1.settled with
    | some _ => m1
    | none => { m1 with settled := some (Settle.resolved args) }

/-- The transport delivering envelope `mo` to the window while the call
modelled by `m` is in flight: the inbound dispatch runs, and every
invocation of the call's `done` listener (identity `doneId`) is applied to
the machine, in order.  The second component is the error escaping the
dispatch, if any. -/
def deliverResponse (m : CallMachine) (doneId : Nat) (mo : MsgObj) :
    CallMachine × Option BridgeError :=
  let out := dispatchWindowEvent m.bst "rpcbridge" (JsMsg.object mo)
  let m1 := { m with bst := out.st }
  (out.invoked.foldl (fun acc i => if i = doneId then applyDone acc mo else acc) m1, out.err)

/-- The request envelope of the worked examples: `{method, params}` with no
caller-supplied `id` or `jsonrpc`. -/
def reqOf (mth : String) (p : JField) : MsgObj :=
  { method := JField.str mth, params := p }

/-- A fresh bridge running `call(reqOf mth p, t)` with generated id `genId`. -/
def callScenario (mth : String) (p : JField) (t : Int) (genId : String) (wid doneId : Nat) :
    CallMachine :=
  callStart mkBridge (reqOf mth p) (JField.num t) genId wid doneId

/-- A response envelope correlated to the generated id `genId`. -/
def respOf (genId : String) (r e : JField) : MsgObj :=
  { jsonrpc := JField.str "2.0", id := JField.str genId, result := r, error := e }

theorem lookupTopic_setTopic_self (hs : List (String × List Handler)) (t : String)
    (l : List Handler) : lookupTopic (setTopic hs t l) t = some l := by
  induction hs with
  | nil => simp [setTopic, lookupTopic]
  | cons p rest ih =>
    by_cases h : p.1 = t
    · simp [setTopic, lookupTopic, h]
    · simp [setTopic, lookupTopic, h, ih]

theorem lookupTopic_setTopic_other (hs : List (String × List Handler)) (t t' : String)
    (l : List Handler) (h : t ≠ t') :
    lookupTopic (setTopic hs t l) t' = lookupTopic hs t' := by
  induction hs with
  | nil => simp [setTopic, lookupTopic, h]
  | cons p rest ih =>
    obtain ⟨k, v⟩ := p
    by_cases hp : k = t
    · subst hp
      simp [setTopic, lookupTopic, h, Ne.symm h]
    · by_cases hp' : k = t'
      · subst hp'
        simp [setTopic, lookupTopic, hp]
      · simp [setTopic, lookupTopic, hp, hp', ih]

theorem topicHandlers_on_self (st : BridgeState) (t : String) (h : Handler) :
    topicHandlers (on' st t h) t = topicHandlers st t ++ [h] := by
  simp [topicHandlers, on', lookupTopic_setTopic_self]

theorem topicHandlers_off (st : BridgeState) (t : String) (arg : OffArg) :
    topicHandlers (off st t arg) t = (topicHandlers st t).filter (offKeep arg) := by
  simp [topicHandlers, off, lookupTopic_setTopic_self]

theorem dispatchList_user_cons (st : BridgeState) (i : Nat) (rest : List Handler) :
    dispatchList st (Handler.user i false :: rest) =
      ⟨(dispatchList st rest).st, i :: (dispatchList st rest).invoked,
        (dispatchList st rest).err⟩ := by
  simp [dispatchList, runHandler]

theorem dispatchList_usersMap (st : BridgeState) (pre : List Nat) (rest : List Handler) :
    dispatchList st (pre.map (fun j => Handler.user j false) ++ rest) =
      ⟨(dispatchList st rest).st, pre ++ (dispatchList st rest).invoked,
        (dispatchList st rest).err⟩ := by
  induction pre with
  | nil => simp
  | cons j js ih => simp [dispatchList_user_cons, ih]

/-- C1: the claim says a response envelope carrying an `error` member makes
the pending call reject with an error wrapping that member.  On the code it
does not: `done` tests `args.errors`, a field the declared `RpcResponse`
type does not even have, so the error-bearing response falls through to
`resolve(args)`.  Here `call({method:"x", params:…})` receives, before its
timeout, the matching response `{jsonrpc:"2.0", id:<generated>, error:{…}}`
— and the promise RESOLVES with that response instead of rejecting. -/
theorem c1_error_response_resolves :
    jtruthy (respOf "gid1" JField.undefined (JField.obj 7)).error = true ∧
    (deliverResponse (callScenario "x" (JField.obj 1) 1000 "gid1" 5 6) 6
        (respOf "gid1" JField.undefined (JField.obj 7))).1.settled
      = some (Settle.resolved (respOf "gid1" JField.undefined (JField.obj 7))) := by
  decide

/-- C2 counterexample: the claim says the PendingCall listener is removed
the instant the call completes, "whether completion happens by matching
response arrival or by the timeout firing".  When the timeout fires first
the promise does reject, but the `_internal:` listener is NOT removed from
the handler registry — nothing in the timer callback deregisters it. -/
theorem c2_timeout_keeps_listener :
    ((fireTimer (callScenario "x" (JField.obj 1) 50 "gid2" 5 6)).settled
        = some (Settle.rejectedTimeout "x timed out after 50ms")) ∧
    topicHandlers (fireTimer (callScenario "x" (JField.obj 1) 50 "gid2" 5 6)).bst
        "_internal:gid2" ≠ [] := by
  decide

/-- C3 counterexample: the claim says one handler's failure never aborts
the dispatch loop.  With two handlers registered on topic `"t"`, the first
of which throws, dispatching a notification to `"t"` invokes only the
first handler: the exception escapes the loop and the second handler is
never invoked. -/
theorem c3_throwing_handler_aborts_dispatch :
    (receiveMessage (on' (on' mkBridge "t" (Handler.user 1 true)) "t" (Handler.user 2 false))
        (JsMsg.object { jsonrpc := JField.str "2.0", method := JField.str "t",
                        params := JField.obj 0 })).invoked = [1] ∧
    (receiveMessage (on' (on' mkBridge "t" (Handler.user 1 true)) "t" (Handler.user 2 false))
        (JsMsg.object { jsonrpc := JField.str "2.0", method := JField.str "t",
                        params := JField.obj 0 })).err
      = some (BridgeError.handlerThrew 1) := by
  decide

/-- C4: after `destroy()` the topic keys do remain, mapped to empty lists —
but the engine is NOT detached from the transport's event source.  The
constructor registered the bound `#receiveMessage` for the `rpcbridge`
event, while `destroy` removes the unbound `this.#receiveMessage` from the
`nativebridge` event: the removal matches nothing, the listener list is
unchanged, and an inbound envelope delivered after `destroy` is still
processed (here it invokes a handler registered after `destroy`). -/
theorem c4_destroy_leaves_dispatcher_attached :
    (destroy (on' mkBridge "foo" (Handler.user 1 false))).handlers = [("foo", [])] ∧
    (destroy (on' mkBridge "foo" (Handler.user 1 false))).windowListeners
      = [("rpcbridge", boundReceiveTag)] ∧
    (dispatchWindowEvent
        (on' (destroy (on' mkBridge "foo" (Handler.user 1 false))) "foo" (Handler.user 2 false))
        "rpcbridge"
        (JsMsg.object { jsonrpc := JField.str "2.0", method := JField.str "foo",
                        params := JField.obj 3 })).invoked = [2] := by
  decide

/-- C5 counterexample: the claim says `off` with any handler value that is
not registered — including non-function or falsy values — leaves the
topic's handlers unchanged.  But the filter predicate
`(fn) => eventHandler && fn !== eventHandler` is false for EVERY element
when `eventHandler` is falsy, so `off("t", undefined)` removes all handlers
of `"t"`. -/
theorem c5_off_falsy_removes_all :
    topicHandlers (on' mkBridge "t" (Handler.user 1 false)) "t" = [Handler.user 1 false] ∧
    topicHandlers (off (on' mkBridge "t" (Handler.user 1 false)) "t" OffArg.falsy) "t" = [] := by
  decide

/-- C6: `call(request, t)` with no matching response within `t` rejects
with a timeout error whose message names the request's method and the
duration: for any method `mth`, params `p` and timeout `t`, the timer
firing settles the promise as a rejection with message
`mth ++ " timed out after " ++ t ++ "ms"`. -/
theorem c6_timeout_rejects_naming_method_and_duration (mth : String) (p : JField) (t : Int)
    (genId : String) (wid doneId : Nat) :
    (fireTimer (callScenario mth p t genId wid doneId)).settled
      = some (Settle.rejectedTimeout (mth ++ " timed out after " ++ toString t ++ "ms")) := by
  rfl

/-- C2 (amended): for a `call` with generated identifier `genId`, exactly
one PendingCall listener is registered under `_internal:genId`; a matching
response removes it at the moment of delivery and resolves the promise; but
when the TIMEOUT fires first the promise rejects while the listener stays
registered — it is removed only if a later matching response arrives, whose
delivery is then ignored for settlement. -/
theorem c2_pending_listener_lifecycle (mth : String) (p : JField) (t : Int) (genId : String)
    (wid doneId : Nat) (r : JField) :
    topicHandlers (callScenario mth p t genId wid doneId).bst ("_internal:" ++ genId)
      = [Handler.wrap wid ("_internal:" ++ genId) (Handler.user doneId false)] ∧
    (topicHandlers (deliverResponse (callScenario mth p t genId wid doneId) doneId
          (respOf genId r JField.undefined)).1.bst ("_internal:" ++ genId) = [] ∧
      (deliverResponse (callScenario mth p t genId wid doneId) doneId
          (respOf genId r JField.undefined)).1.settled
        = some (Settle.resolved (respOf genId r JField.undefined))) ∧
    (topicHandlers (fireTimer (callScenario mth p t genId wid doneId)).bst
          ("_internal:" ++ genId)
        = [Handler.wrap wid ("_internal:" ++ genId) (Handler.user doneId false)] ∧
      (fireTimer (callScenario mth p t genId wid doneId)).settled.isSome = true) ∧
    (topicHandlers (deliverResponse (fireTimer (callScenario mth p t genId wid doneId)) doneId
          (respOf genId r JField.undefined)).1.bst ("_internal:" ++ genId) = [] ∧
      (deliverResponse (fireTimer (callScenario mth p t genId wid doneId)) doneId
          (respOf genId r JField.undefined)).1.settled
        = (fireTimer (callScenario mth p t genId wid doneId)).settled) := by
  refine ⟨?_, ⟨?_, ?_⟩, ⟨?_, ?_⟩, ⟨?_, ?_⟩⟩ <;>
    simp [callScenario, callStart, reqOf, respOf, once, on', off, offKeep, sendMessage,
      mkBridge, topicHandlers, lookupTopic, setTopic, fireTimer, applyDone, deliverResponse,
      dispatchWindowEvent, receiveMessage, receiveRequest, dispatchList, runHandler,
      jtruthy, jrender, boundReceiveTag]

/-- An inbound notification envelope for method `tp` with params `p`. -/
def notifTo (tp : String) (p : JField) : JsMsg :=
  JsMsg.object { jsonrpc := JField.str "2.0", method := JField.str tp, params := p }

/-- C7: a handler registered through `once(tp, h)` fires at most once in
total: the first dispatch to `tp` invokes it exactly once (the wrapper
deregisters itself before invoking `h`), a second dispatch invokes nothing,
the topic's list is left empty, and a subsequent `off(tp, h)` removes no
residual registration — the state is unchanged. -/
theorem c7_once_fires_at_most_once (tp : String) (d wid : Nat) (p : JField) :
    (receiveMessage (once mkBridge tp (Handler.user d false) wid) (notifTo tp p)).invoked
      = [d] ∧
    (receiveMessage
        (receiveMessage (once mkBridge tp (Handler.user d false) wid) (notifTo tp p)).st
        (notifTo tp p)).invoked = [] ∧
    topicHandlers
        (receiveMessage
          (receiveMessage (once mkBridge tp (Handler.user d false) wid) (notifTo tp p)).st
          (notifTo tp p)).st tp = [] ∧
    off (receiveMessage
          (receiveMessage (once mkBridge tp (Handler.user d false) wid) (notifTo tp p)).st
          (notifTo tp p)).st tp (OffArg.fn (Handler.user d false))
      = (receiveMessage
          (receiveMessage (once mkBridge tp (Handler.user d false) wid) (notifTo tp p)).st
          (notifTo tp p)).st := by
  refine ⟨?_, ?_, ?_, ?_⟩ <;>
    simp [receiveMessage, notifTo, receiveRequest, once, on', off, offKeep, mkBridge,
      topicHandlers, lookupTopic, setTopic, dispatchList, runHandler, jtruthy]

/-- C3 (amended): a dispatch to a topic whose handler list is
`pre ++ [thrower] ++ post` (the `pre` handlers well-behaved) invokes the
`pre` handlers and the thrower, in order, and then ABORTS: the exception
escapes the loop and none of the `post` handlers is invoked.  One handler's
failure does abort the dispatch loop for its siblings. -/
theorem c3_throw_aborts_rest_of_dispatch (tp : String) (p : JField) (pre : List Nat) (i : Nat)
    (post : List Handler) :
    receiveMessage
        { handlers := [(tp, pre.map (fun j => Handler.user j false)
            ++ Handler.user i true :: post)],
          windowListeners := [("rpcbridge", boundReceiveTag)], sent := [] }
        (notifTo tp p)
      = ⟨{ handlers := [(tp, pre.map (fun j => Handler.user j false)
            ++ Handler.user i true :: post)],
           windowListeners := [("rpcbridge", boundReceiveTag)], sent := [] },
         pre ++ [i], some (BridgeError.handlerThrew i)⟩ := by
  simp [receiveMessage, notifTo, receiveRequest, topicHandlers, lookupTopic, jtruthy,
    dispatchList_usersMap, dispatchList, runHandler]

/-- C5 (amended): `off(t, handler)` removes exactly the handlers
identity-equal to `handler` when `handler` is a function; a truthy
non-function argument, or a function not currently registered, is a no-op
on the topic's handler list; but a FALSY `handler` argument removes every
handler of the topic, because the filter predicate
`eventHandler && fn !== eventHandler` is then false for every element. -/
theorem c5_off_semantics (st : BridgeState) (t : String) :
    (∀ tag, topicHandlers (off st t (OffArg.truthyNonFn tag)) t = topicHandlers st t) ∧
    topicHandlers (off st t OffArg.falsy) t = [] ∧
    (∀ h, topicHandlers (off st t (OffArg.fn h)) t
        = (topicHandlers st t).filter (fun x => decide ¬(x = h))) ∧
    (∀ h, h ∉ topicHandlers st t →
        topicHandlers (off st t (OffArg.fn h)) t = topicHandlers st t) := by
  refine ⟨fun tag => ?_, ?_, fun h => ?_, fun h hmem => ?_⟩
  · rw [topicHandlers_off]
    simp [offKeep]
  · rw [topicHandlers_off]
    simp [offKeep]
  · rw [topicHandlers_off]
    refine List.filter_congr (fun x _ => ?_)
    by_cases hx : x = h <;> simp [offKeep, hx]
  · rw [topicHandlers_off]
    refine List.filter_eq_self.mpr (fun a ha => ?_)
    have : a ≠ h := fun he => hmem (he ▸ ha)
    simp [offKeep, this]

/-- Witness for `c5_off_semantics`: on a registry holding one handler for
`"bar/baz"`, removing a different (never-registered) handler is a no-op,
and removing with a falsy argument empties the topic. -/
theorem c5_off_semantics_witness :
    topicHandlers (off (on' mkBridge "bar/baz" (Handler.user 1 false)) "bar/baz"
        (OffArg.fn (Handler.user 2 false))) "bar/baz"
      = topicHandlers (on' mkBridge "bar/baz" (Handler.user 1 false)) "bar/baz" ∧
    topicHandlers (off (on' mkBridge "bar/baz" (Handler.user 1 false)) "bar/baz"
        OffArg.falsy) "bar/baz" = [] :=
  ⟨(c5_off_semantics (on' mkBridge "bar/baz" (Handler.user 1 false)) "bar/baz").2.2.2
      (Handler.user 2 false) (by decide),
   (c5_off_semantics (on' mkBridge "bar/baz" (Handler.user 1 false)) "bar/baz").2.1⟩

/-- C8: `notification(envelope)` throws `InvalidOperation` synchronously
and hands nothing to the transport whenever the envelope's `id` is defined
(`typeof id !== 'undefined'`); for an envelope without an `id` it throws
nothing, hands the envelope to the transport adapter, and defaults its
`jsonrpc` member to `"2.0"` when that member is absent. -/
theorem c8_notification_id_rejected (st : BridgeState) (n : MsgObj) :
    (n.id ≠ JField.undefined →
      notificationOp st n = (st, some BridgeError.notificationWithId)) ∧
    (n.id = JField.undefined →
      (notificationOp st n).2 = none ∧
      (notificationOp st n).1.sent
        = st.sent ++ [if jtruthy n.jsonrpc then n else { n with jsonrpc := JField.str "2.0" }] ∧
      (n.jsonrpc = JField.undefined →
        (notificationOp st n).1.sent = st.sent ++ [{ n with jsonrpc := JField.str "2.0" }])) := by
  constructor
  · intro h
    simp [notificationOp, h]
  · intro h
    refine ⟨?_, ?_, ?_⟩
    · simp [notificationOp, h]
    · simp [notificationOp, h, sendMessage]
    · intro hj
      simp [notificationOp, h, sendMessage, hj, jtruthy]

/-- Witness for `c8_notification_id_rejected`: the envelope
`{method:"y", params:[], id:"z"}` is rejected with no transport delivery,
and the same envelope without the `id` is delivered with `jsonrpc`
defaulted to `"2.0"`. -/
theorem c8_notification_witness :
    notificationOp mkBridge
        { method := JField.str "y", params := JField.obj 0, id := JField.str "z" }
      = (mkBridge, some BridgeError.notificationWithId) ∧
    (notificationOp mkBridge { method := JField.str "y", params := JField.obj 0 }).1.sent
      = [{ method := JField.str "y", params := JField.obj 0,
           jsonrpc := JField.str "2.0" }] := by
  constructor
  · exact (c8_notification_id_rejected mkBridge
      { method := JField.str "y", params := JField.obj 0, id := JField.str "z" }).1 (by decide)
  · have h := ((c8_notification_id_rejected mkBridge
      { method := JField.str "y", params := JField.obj 0 }).2 rfl).2.2 rfl
    simpa [mkBridge] using h

/-- C9: an inbound payload that is not an object, or whose `jsonrpc` member
is missing or not exactly `"2.0"`, makes the inbound dispatcher throw: no
registered handler is invoked and the handler registry is untouched. -/
theorem c9_invalid_envelope_rejected (st : BridgeState) (msg : JsMsg)
    (h : ∀ m, msg = JsMsg.object m → m.jsonrpc ≠ JField.str "2.0") :
    (receiveMessage st msg).invoked = [] ∧
    (receiveMessage st msg).st = st ∧
    (receiveMessage st msg).err.isSome = true := by
  cases msg with
  | nonObject tag => simp [receiveMessage]
  | object m =>
    have hm := h m rfl
    cases hj : m.jsonrpc with
    | str s =>
      have hs : s ≠ "2.0" := fun he => hm (by rw [hj, he])
      simp [receiveMessage, hj, hs]
    | undefined => simp [receiveMessage, hj]
    | null => simp [receiveMessage, hj]
    | num n => simp [receiveMessage, hj]
    | bool b => simp [receiveMessage, hj]
    | obj tg => simp [receiveMessage, hj]

/-- Witness for `c9_invalid_envelope_rejected`: a `jsonrpc:"1.0"` envelope
aimed at a topic with a registered handler is rejected without invoking it. -/
theorem c9_invalid_envelope_witness :
    (receiveMessage (on' mkBridge "t" (Handler.user 1 false))
        (JsMsg.object { jsonrpc := JField.str "1.0", method := JField.str "t",
                        params := JField.obj 0 })).invoked = [] ∧
    (receiveMessage (on' mkBridge "t" (Handler.user 1 false))
        (JsMsg.object { jsonrpc := JField.str "1.0", method := JField.str "t",
                        params := JField.obj 0 })).st
      = on' mkBridge "t" (Handler.user 1 false) ∧
    (receiveMessage (on' mkBridge "t" (Handler.user 1 false))
        (JsMsg.object { jsonrpc := JField.str "1.0", method := JField.str "t",
                        params := JField.obj 0 })).err.isSome = true :=
  c9_invalid_envelope_rejected (on' mkBridge "t" (Handler.user 1 false))
    (JsMsg.object { jsonrpc := JField.str "1.0", method := JField.str "t",
                    params := JField.obj 0 })
    (by intro m hm; injection hm with h2; subst h2; decide)

/-- C10: `call(request, t)` mutates the caller's request object in place:
when `request.id` is undefined the generated identifier is assigned to it,
`request.jsonrpc` is set to `"2.0"` exactly when it was not truthy (in
particular when absent), and every other field is left unchanged.  The
machine's `request` component is that same caller-visible object after
`call` returned. -/
theorem c10_call_mutates_request (st : BridgeState) (jr : JField) (mth : String)
    (p idf res er ers : JField) (t : Int) (genId : String) (wid doneId : Nat) :
    (callStart st { jsonrpc := jr, method := JField.str mth, params := p, id := idf,
                    result := res, error := er, errors := ers }
        (JField.num t) genId wid doneId).request
      = { jsonrpc := if jtruthy jr then jr else JField.str "2.0",
          method := JField.str mth, params := p,
          id := if idf = JField.undefined then JField.str genId else idf,
          result := res, error := er, errors := ers } := by
  by_cases hid : idf = JField.undefined <;>
    by_cases hj : jtruthy jr <;>
      simp [callStart, sendMessage, hid, hj]
